import Mathlib

/-!
Verification of the mbta-etl repository's normalization, load and
aggregation core against its specification.

The embedding is shallow: Go float64 values are modelled as exact
rationals (`Rat`) — the operations the properties use (comparison with
zero, clamping, sorting, picking elements at a rank) agree between the
two representations; Go `time.Time` instants are modelled as abstract
`Int` instants, and the RFC3339 parser (`time.Parse`, standard library,
outside the repository) is a parameter `parse : String → Option Int`
(`none` = parse error); Go's `nil` error is `Option.none`.

Sources: src/transformer/transformer.go, src/unnamed/part_001 and
src/unnamed/part_003 (package pipeline: Transform, Load),
src/unnamed/part_000 (package vehiclestore and package model),
src/pipeline/queries.go and src/unnamed/part_002 (package pipeline:
query functions).
-/

namespace MbtaEtl

/-- Raw MBTA API attributes, from `model.Attributes` (src/unnamed/part_000,
package model). `Speed` and `Bearing` are pointer (nullable) fields. -/
structure Attributes where
  UpdatedAt : String
  Speed : Option Rat
  RevenueStatus : String
  OccupancyStatus : String
  Longitude : Rat
  Latitude : Rat
  Label : String
  DirectionID : Int
  CurrentStopSequence : Option Int
  CurrentStatus : String
  Bearing : Option Int
deriving DecidableEq

/-- Raw API entry, from `model.Vehicle`. -/
structure Vehicle where
  ID : String
  «Type» : String
  Attributes : Attributes
deriving DecidableEq

/-- Normalized record, from `model.VehicleRecord`. -/
structure VehicleRecord where
  ID : String
  Label : String
  Latitude : Rat
  Longitude : Rat
  Speed : Rat
  DirectionID : Int
  CurrentStatus : String
  OccupancyStatus : String
  Bearing : Int
  UpdatedAt : Int
  IngestedAt : Int
deriving DecidableEq

/-- `normalizeStatus` of src/transformer/transformer.go line 82 and
src/unnamed/part_001 line 101: empty status coalesces to "UNKNOWN". -/
def normalizeStatus (status : String) : String :=
  if status = "" then "UNKNOWN" else status

/-- Loop body of `VehicleTransformer.TransformVehicles`
(src/transformer/transformer.go lines 34-73): parse `updated_at` falling
back to `now`, coalesce nil speed/bearing to zero, clamp negative speed
to zero, normalize the two status strings, stamp `IngestedAt := now`.
`updatedAt.UTC()` is the identity on the abstract instant. -/
def mkRecordT (parse : String → Option Int) (now : Int) (v : Vehicle) : VehicleRecord :=
  let updatedAt : Int := (parse v.Attributes.UpdatedAt).getD now
  let speed0 : Rat := (v.Attributes.Speed).getD 0
  let speed : Rat := if speed0 < 0 then 0 else speed0
  { ID := v.ID
    Label := v.Attributes.Label
    Latitude := v.Attributes.Latitude
    Longitude := v.Attributes.Longitude
    Speed := speed
    DirectionID := v.Attributes.DirectionID
    CurrentStatus := normalizeStatus v.Attributes.CurrentStatus
    OccupancyStatus := normalizeStatus v.Attributes.OccupancyStatus
    Bearing := (v.Attributes.Bearing).getD 0
    UpdatedAt := updatedAt
    IngestedAt := now }

/-- Loop body of `ETLPipeline.Transform` (src/unnamed/part_001 lines
58-92, identical in src/unnamed/part_003): same as `mkRecordT` except
that this version has no negative-speed clamp. -/
def mkRecordP (parse : String → Option Int) (now : Int) (v : Vehicle) : VehicleRecord :=
  let updatedAt : Int := (parse v.Attributes.UpdatedAt).getD now
  let speed : Rat := (v.Attributes.Speed).getD 0
  { ID := v.ID
    Label := v.Attributes.Label
    Latitude := v.Attributes.Latitude
    Longitude := v.Attributes.Longitude
    Speed := speed
    DirectionID := v.Attributes.DirectionID
    CurrentStatus := normalizeStatus v.Attributes.CurrentStatus
    OccupancyStatus := normalizeStatus v.Attributes.OccupancyStatus
    Bearing := (v.Attributes.Bearing).getD 0
    UpdatedAt := updatedAt
    IngestedAt := now }

/-- The shared loop shape of both normalizers (transformer.go lines
27-76, part_001 lines 52-95): entries with empty `ID` or empty `Label`
are skipped (`continue`), every other entry contributes one record, in
input order. -/
def transformLoop (mk : Vehicle → VehicleRecord) : List Vehicle → List VehicleRecord
  | [] => []
  | v :: vs =>
      if v.ID = "" ∨ v.Attributes.Label = "" then transformLoop mk vs
      else mk v :: transformLoop mk vs

/-- `VehicleTransformer.TransformVehicles` (src/transformer/transformer.go
lines 23-79). The Go function captures `now := time.Now().UTC()` once;
here `now` is that single captured instant. The second component is the
returned Go error, which is always `nil`. -/
def TransformVehicles (parse : String → Option Int) (now : Int)
    (vehicles : List Vehicle) : List VehicleRecord × Option String :=
  (transformLoop (mkRecordT parse now) vehicles, none)

/-- `ETLPipeline.Transform` (src/unnamed/part_001 lines 48-98, identical
in src/unnamed/part_003). `now := time.Now()` is captured once per call. -/
def Transform (parse : String → Option Int) (now : Int)
    (vehicles : List Vehicle) : List VehicleRecord × Option String :=
  (transformLoop (mkRecordP parse now) vehicles, none)

/-- An entry survives the rejection filter iff both `ID` and `Label` are
non-empty (transformer.go line 29, part_001 line 54). -/
def validVehicle (v : Vehicle) : Bool :=
  !(v.ID == "") && !(v.Attributes.Label == "")

theorem transformLoop_eq_filter_map (mk : Vehicle → VehicleRecord) (vs : List Vehicle) :
    transformLoop mk vs = (vs.filter validVehicle).map mk := by
  induction vs with
  | nil => rfl
  | cons v vs ih =>
      by_cases h : v.ID = "" ∨ v.Attributes.Label = ""
      · have hv : validVehicle v = false := by
          rcases h with h | h <;> simp [validVehicle, h]
        simp [transformLoop, h, List.filter_cons, hv, ih]
      · have hv : validVehicle v = true := by
          push_neg at h
          simp [validVehicle, h.1, h.2]
        simp [transformLoop, h, List.filter_cons, hv, ih]

theorem length_transformLoop (mk : Vehicle → VehicleRecord) (vs : List Vehicle) :
    (transformLoop mk vs).length = vs.length - vs.countP (fun v => !(validVehicle v)) := by
  rw [transformLoop_eq_filter_map, List.length_map, ← List.countP_eq_length_filter]
  have h := List.length_eq_countP_add_countP (l := vs) (p := validVehicle)
  have h2 : List.countP (fun v => !validVehicle v) vs
      = List.countP (fun a => decide ¬(validVehicle a = true)) vs := by
    simp
  omega

/-- C5: normalization (TransformVehicles / Transform) never returns an
error; its output is exactly the subsequence of input entries whose id
and label are both non-empty, in input order (each kept entry mapped by
the respective loop body, so duplicate ids are all forwarded); hence the
output length is the input length minus the number of rejected entries. -/
theorem C5_transform_filters (parse : String → Option Int) (now : Int) (vs : List Vehicle) :
    (Transform parse now vs).snd = none ∧
    (TransformVehicles parse now vs).snd = none ∧
    (Transform parse now vs).fst = (vs.filter validVehicle).map (mkRecordP parse now) ∧
    (TransformVehicles parse now vs).fst = (vs.filter validVehicle).map (mkRecordT parse now) ∧
    (Transform parse now vs).fst.length = vs.length - vs.countP (fun v => !(validVehicle v)) ∧
    (TransformVehicles parse now vs).fst.length
      = vs.length - vs.countP (fun v => !(validVehicle v)) := by
  refine ⟨rfl, rfl, ?_, ?_, ?_, ?_⟩
  · exact transformLoop_eq_filter_map _ vs
  · exact transformLoop_eq_filter_map _ vs
  · exact length_transformLoop _ vs
  · exact length_transformLoop _ vs

/-- A raw entry with a present, negative speed (-5), non-empty id and
label, and an unparsable timestamp; used to separate the two
normalizers. -/
def vNeg : Vehicle :=
  { ID := "veh-1"
    «Type» := "vehicle"
    Attributes :=
      { UpdatedAt := "not-a-timestamp"
        Speed := some (-5)
        RevenueStatus := ""
        OccupancyStatus := "MANY_SEATS_AVAILABLE"
        Longitude := -71
        Latitude := 42
        Label := "1234"
        DirectionID := 0
        CurrentStopSequence := none
        CurrentStatus := "IN_TRANSIT_TO"
        Bearing := some 180 } }

/-- A parser that fails on every timestamp string. -/
def parse0 : String → Option Int := fun _ => none

/-- C1 counterexample: the pipeline's Transform (src/unnamed/part_001,
src/unnamed/part_003) has no negative-speed clamp, so the entry `vNeg`
with source speed -5 is normalized to a record whose speed is -5, which
is negative, not 0.0 as the claim states. -/
theorem C1_cex_negative_speed_not_clamped :
    (Transform parse0 0 [vNeg]).fst.map VehicleRecord.Speed = [(-5 : Rat)] ∧
    ((-5 : Rat) < 0) := by
  constructor
  · rfl
  · decide

/-- C1 amended: only TransformVehicles (src/transformer/transformer.go)
clamps, giving speed = max(0.0, sourceSpeedOrZero); the pipeline's
Transform coalesces an absent speed to 0.0 but forwards the source speed
unchanged, negative values included. -/
theorem C1_speed_coalescing (parse : String → Option Int) (now : Int) (v : Vehicle)
    (h1 : v.ID ≠ "") (h2 : v.Attributes.Label ≠ "") :
    (TransformVehicles parse now [v]).fst.map VehicleRecord.Speed
      = [max 0 ((v.Attributes.Speed).getD 0)] ∧
    (Transform parse now [v]).fst.map VehicleRecord.Speed
      = [(v.Attributes.Speed).getD 0] := by
  have hcond : ¬(v.ID = "" ∨ v.Attributes.Label = "") := by
    push_neg
    exact ⟨h1, h2⟩
  constructor
  · simp only [TransformVehicles, transformLoop, hcond, if_false, mkRecordT, List.map_cons,
      List.map_nil]
    rcases lt_or_le ((v.Attributes.Speed).getD 0) 0 with h | h
    · simp [h, (max_eq_left h.le : max 0 ((v.Attributes.Speed).getD 0) = 0)]
    · simp [not_lt.mpr h, max_eq_right h]
  · simp [Transform, transformLoop, hcond, mkRecordP]

theorem C1_speed_coalescing_witness :
    (TransformVehicles parse0 0 [vNeg]).fst.map VehicleRecord.Speed
      = [max 0 ((vNeg.Attributes.Speed).getD 0)] ∧
    (Transform parse0 0 [vNeg]).fst.map VehicleRecord.Speed
      = [(vNeg.Attributes.Speed).getD 0] :=
  C1_speed_coalescing parse0 0 vNeg (by decide) (by decide)

/-- C8: both normalizers capture `now` once per call; every output
record of that call carries `IngestedAt = now`, and a surviving entry
whose `updatedAt` string fails to parse gets `UpdatedAt = now` instead
of being rejected (the call still returns no error, see C5). -/
theorem C8_batch_timestamp (parse : String → Option Int) (now : Int) (vs : List Vehicle) :
    (∀ r ∈ (Transform parse now vs).fst, r.IngestedAt = now) ∧
    (∀ r ∈ (TransformVehicles parse now vs).fst, r.IngestedAt = now) ∧
    (∀ v : Vehicle, v.ID ≠ "" → v.Attributes.Label ≠ "" →
      parse v.Attributes.UpdatedAt = none →
      (Transform parse now [v]).fst.map VehicleRecord.UpdatedAt = [now] ∧
      (TransformVehicles parse now [v]).fst.map VehicleRecord.UpdatedAt = [now]) := by
  refine ⟨?_, ?_, ?_⟩
  · intro r hr
    rw [Transform] at hr
    simp only [transformLoop_eq_filter_map, List.mem_map] at hr
    obtain ⟨v, _, rfl⟩ := hr
    rfl
  · intro r hr
    rw [TransformVehicles] at hr
    simp only [transformLoop_eq_filter_map, List.mem_map] at hr
    obtain ⟨v, _, rfl⟩ := hr
    rfl
  · intro v h1 h2 hparse
    have hcond : ¬(v.ID = "" ∨ v.Attributes.Label = "") := by
      push_neg
      exact ⟨h1, h2⟩
    constructor
    · simp [Transform, transformLoop, hcond, mkRecordP, hparse]
    · simp [TransformVehicles, transformLoop, hcond, mkRecordT, hparse]

/-- Visible state of the `vehicles` table: `id` is the primary key
(src/unnamed/part_000 lines 153-166), so the committed state is a finite
map from id to the row's record. -/
def StoreState : Type := String → Option VehicleRecord

/-- Effect of one `INSERT OR REPLACE` (part_000 lines 184-199,
part_001 lines 13-28): the row with the record's id, if any, is fully
replaced; otherwise the record is inserted. -/
def upsert1 (s : StoreState) (r : VehicleRecord) : StoreState :=
  fun id => if id = r.ID then some r else s id

/-- Effect on the committed state of executing the whole batch, in
order (the statement loop of `Load`). -/
def loadRecords (s : StoreState) (records : List VehicleRecord) : StoreState :=
  records.foldl upsert1 s

/-- Failure behaviour of the underlying SQLite driver during one `Load`
call: whether `Begin`, `Prepare`, the i-th `Exec`, or `Commit` fails.
The driver is outside the repository; `Load`'s control flow branches on
these outcomes exactly where the Go code checks `err`. -/
structure Oracle where
  beginFail : Bool
  prepareFail : Bool
  execFail : Nat → Bool
  commitFail : Bool

/-- The statement loop of `Load` (part_000 lines 194-203, part_001
lines 23-32), run against the transaction-local state: each `Exec`
either fails (the function returns the error, the deferred `Rollback`
discards the transaction) or applies one upsert to the local state. -/
def execLoop (o : Oracle) (i : Nat) (txState : StoreState) :
    List VehicleRecord → Except String StoreState
  | [] => Except.ok txState
  | r :: rs =>
      if o.execFail i then Except.error ("failed to insert record " ++ r.ID)
      else execLoop o (i + 1) (upsert1 txState r) rs

/-- `VehicleStore.Load` (src/unnamed/part_000 lines 176-210) and
`ETLPipeline.Load` (src/unnamed/part_001 lines 6-39): begin a
transaction, prepare the `INSERT OR REPLACE` statement, exec every
record, commit; `defer tx.Rollback()` discards the transaction-local
writes on any failure, so the committed state changes only at a
successful `Commit`. Returns the Go error and the committed state after
the call. -/
def Load (o : Oracle) (s : StoreState) (records : List VehicleRecord) :
    Except String Unit × StoreState :=
  if o.beginFail then (Except.error "failed to begin transaction", s)
  else if o.prepareFail then (Except.error "failed to prepare statement", s)
  else
    match execLoop o 0 s records with
    | Except.error e => (Except.error e, s)
    | Except.ok txState =>
        if o.commitFail then (Except.error "failed to commit transaction", s)
        else (Except.ok (), txState)

theorem execLoop_ok (o : Oracle) (records : List VehicleRecord) :
    ∀ (i : Nat) (s t : StoreState), execLoop o i s records = Except.ok t →
      t = loadRecords s records := by
  induction records with
  | nil =>
      intro i s t h
      rw [execLoop] at h
      cases h
      rfl
  | cons r rs ih =>
      intro i s t h
      rw [execLoop] at h
      by_cases hf : o.execFail i
      · rw [if_pos hf] at h
        cases h
      · rw [if_neg hf] at h
        exact ih (i + 1) (upsert1 s r) t h

/-- First record in the batch (scanning from the back) carrying `id`,
i.e. the record whose upsert wins for that id. -/
def lastWithId (records : List VehicleRecord) (id : String) : Option VehicleRecord :=
  records.foldl (fun acc r => if r.ID = id then some r else acc) none

theorem foldl_lastWithId_init (records : List VehicleRecord) (id : String) :
    ∀ init : Option VehicleRecord,
      records.foldl (fun acc r => if r.ID = id then some r else acc) init
        = match lastWithId records id with
          | some r => some r
          | none => init := by
  induction records with
  | nil =>
      intro init
      rfl
  | cons r rs ih =>
      intro init
      rw [lastWithId, List.foldl_cons, List.foldl_cons, ih, ih]
      by_cases h : r.ID = id
      · cases lastWithId rs id <;> simp [h]
      · cases lastWithId rs id <;> simp [h]

theorem loadRecords_apply (records : List VehicleRecord) (id : String) :
    ∀ s : StoreState,
      loadRecords s records id
        = match lastWithId records id with
          | some r => some r
          | none => s id := by
  induction records with
  | nil =>
      intro s
      rfl
  | cons r rs ih =>
      intro s
      have hlhs : loadRecords s (r :: rs) id = loadRecords (upsert1 s r) rs id := rfl
      rw [hlhs, ih]
      have hrhs : lastWithId (r :: rs) id
          = match lastWithId rs id with
            | some x => some x
            | none => if r.ID = id then some r else none := by
        rw [lastWithId, List.foldl_cons, foldl_lastWithId_init]
      rw [hrhs]
      cases lastWithId rs id with
      | some x => rfl
      | none =>
          by_cases h : r.ID = id
          · simp [upsert1, h]
          · have h' : id ≠ r.ID := fun hh => h hh.symm
            simp [upsert1, h, h']

theorem loadRecords_idem (s : StoreState) (records : List VehicleRecord) :
    loadRecords (loadRecords s records) records = loadRecords s records := by
  funext id
  have h1 := loadRecords_apply records id s
  have h2 := loadRecords_apply records id (loadRecords s records)
  rw [h2, h1]
  cases lastWithId records id <;> rfl

theorem load_snd_eq (o : Oracle) (s : StoreState) (records : List VehicleRecord) :
    (Load o s records).snd
      = match (Load o s records).fst with
        | Except.ok _ => loadRecords s records
        | Except.error _ => s := by
  rw [Load]
  by_cases hb : o.beginFail
  · simp [hb]
  · by_cases hp : o.prepareFail
    · simp [hb, hp]
    · simp only [hb, hp, if_false, Bool.false_eq_true]
      cases he : execLoop o 0 s records with
      | error e => simp
      | ok t =>
          by_cases hc : o.commitFail
          · simp [hc]
          · simp [hc, execLoop_ok o records 0 s t he]

/-- C4: Load is atomic. Its committed state after the call is the full
batch effect when it returns success, and is exactly the state from
before the call when it returns an error (the transaction is rolled
back; no partial write survives), whichever of begin/prepare/exec/commit
failed. -/
theorem C4_load_atomic (o : Oracle) (s : StoreState) (records : List VehicleRecord) :
    (Load o s records).snd
      = match (Load o s records).fst with
        | Except.ok _ => loadRecords s records
        | Except.error _ => s :=
  load_snd_eq o s records

theorem load_ok_state (o : Oracle) (s : StoreState) (records : List VehicleRecord)
    (t : StoreState) (h : Load o s records = (Except.ok (), t)) :
    t = loadRecords s records := by
  have hs := load_snd_eq o s records
  rw [h] at hs
  exact hs

/-- C3: upsert is idempotent. If a batch with pairwise-distinct ids is
loaded twice, each call committing successfully, the committed state
after the second call equals the state after the first. -/
theorem C3_load_idempotent (o1 o2 : Oracle) (s : StoreState)
    (records : List VehicleRecord) (s1 s2 : StoreState)
    (_hnodup : (records.map VehicleRecord.ID).Nodup)
    (h1 : Load o1 s records = (Except.ok (), s1))
    (h2 : Load o2 s1 records = (Except.ok (), s2)) :
    s2 = s1 := by
  rw [load_ok_state o2 s1 records s2 h2, load_ok_state o1 s records s1 h1, loadRecords_idem]

/-- A normalized record with the fixed fields the repository's tests use
(src/unnamed/part_000 lines 628-641) and the given id, label and speed. -/
def mkRec (id label : String) (speed : Rat) : VehicleRecord :=
  { ID := id
    Label := label
    Latitude := 42.3601
    Longitude := -71.0589
    Speed := speed
    DirectionID := 0
    CurrentStatus := "IN_TRANSIT_TO"
    OccupancyStatus := "MANY_SEATS_AVAILABLE"
    Bearing := 180
    UpdatedAt := 0
    IngestedAt := 0 }

/-- A driver run where begin, prepare, every exec and commit succeed. -/
def noFail : Oracle :=
  { beginFail := false, prepareFail := false, execFail := fun _ => false, commitFail := false }

/-- The empty vehicles table. -/
def emptyStore : StoreState := fun _ => none

/-- A two-record batch with distinct ids. -/
def rs2 : List VehicleRecord := [mkRec "test-1" "1234" 25.5, mkRec "test-2" "5678" 30]

theorem C3_load_idempotent_witness :
    ((rs2.map VehicleRecord.ID).Nodup) ∧
    Load noFail emptyStore rs2 = (Except.ok (), loadRecords emptyStore rs2) ∧
    Load noFail (loadRecords emptyStore rs2) rs2
      = (Except.ok (), loadRecords (loadRecords emptyStore rs2) rs2) ∧
    loadRecords (loadRecords emptyStore rs2) rs2 = loadRecords emptyStore rs2 :=
  ⟨by decide, rfl, rfl,
    C3_load_idempotent noFail noFail emptyStore rs2
      (loadRecords emptyStore rs2) (loadRecords (loadRecords emptyStore rs2) rs2)
      (by decide) rfl rfl⟩

/-- A value of the generic `map[string]interface{}` query result
(`model.QueryStat`): an integer count, a float formatted "%.2f mph", a
float formatted "%.1f%%", or a literal string. The model keeps the exact
rational behind a formatted float; the formatting itself carries no
decision logic. -/
inductive StatVal where
  | int (n : Int)
  | mph (q : Rat)
  | pct (q : Rat)
  | str (s : String)
deriving DecidableEq

/-- Column `speed` of every row, in row order. -/
def speeds (rows : List VehicleRecord) : List Rat :=
  rows.map VehicleRecord.Speed

/-- `SELECT COUNT(*) ... WHERE current_status = st`. -/
def countStatus (rows : List VehicleRecord) (st : String) : Nat :=
  rows.countP (fun r => r.CurrentStatus == st)

/-- `SUM(CASE WHEN occupancy_status = st THEN 1 ELSE 0 END)`. -/
def countOccupancy (rows : List VehicleRecord) (st : String) : Nat :=
  rows.countP (fun r => r.OccupancyStatus == st)

/-- `SELECT COUNT(*) ... WHERE speed > 0`. -/
def movingCount (rows : List VehicleRecord) : Nat :=
  rows.countP (fun r => decide (0 < r.Speed))

/-- `SELECT COUNT(*) ... WHERE speed = 0`. -/
def stationaryCount (rows : List VehicleRecord) : Nat :=
  rows.countP (fun r => r.Speed == 0)

/-- `SELECT speed ... WHERE speed > 0`, before ordering. -/
def movingSpeeds (rows : List VehicleRecord) : List Rat :=
  (speeds rows).filter (fun q => decide (0 < q))

/-- Insertion step of the ascending sort modelling `ORDER BY speed`. -/
def insertAsc (q : Rat) : List Rat → List Rat
  | [] => [q]
  | x :: xs => if q ≤ x then q :: x :: xs else x :: insertAsc q xs

/-- `ORDER BY speed` ascending, as an insertion sort on the values. -/
def sortAsc (l : List Rat) : List Rat :=
  l.foldr insertAsc []

/-- SQL `MAX` over a column: `NULL` (`none`) on an empty table. -/
def listMax : List Rat → Option Rat
  | [] => none
  | x :: xs => some (xs.foldl max x)

/-- SQL `MIN` over a column: `NULL` (`none`) on an empty table. -/
def listMin : List Rat → Option Rat
  | [] => none
  | x :: xs => some (xs.foldl min x)

/-- `ETLPipeline.GetSummaryStats` (src/pipeline/queries.go lines 67-153,
identical in src/unnamed/part_002). On an empty table
`AVG(speed)`, `MAX(speed)` and `MIN(speed)` are SQL NULL and the first
`Scan` into plain `float64` variables fails (database/sql refuses to
convert NULL to float64), which line 79 returns as an error. Otherwise
the result map is built in program order; `percent_moving` is added only
when `totalVehicles > 0` (no else branch, queries.go line 127), and the
three percentile keys only when `movingVehicles > 0` (line 146). The
percentile `Scan` calls ignore their error, so the `p50/p90/p95`
variables keep their zero value when `LIMIT 1 OFFSET k` returns no row,
which `List.getD _ _ 0` mirrors. -/
def pipelineGetSummaryStats (rows : List VehicleRecord) :
    Except String (List (String × StatVal)) :=
  if rows.length = 0 then
    Except.error "sql: Scan error: converting NULL to float64 is unsupported"
  else
    let total : Int := rows.length
    let avgSpeed : Rat := (speeds rows).sum / (rows.length : Rat)
    let maxSpeed : Rat := (listMax (speeds rows)).getD 0
    let minSpeed : Rat := (listMin (speeds rows)).getD 0
    let moving : Nat := movingCount rows
    let sorted : List Rat := sortAsc (movingSpeeds rows)
    let p50 : Rat := sorted.getD (moving / 2) 0
    let p90 : Rat := sorted.getD (moving * 9 / 10) 0
    let p95 : Rat := sorted.getD (moving * 95 / 100) 0
    Except.ok
      ([("total_vehicles", StatVal.int total),
        ("average_speed", StatVal.mph avgSpeed),
        ("max_speed", StatVal.mph maxSpeed),
        ("min_speed", StatVal.mph minSpeed),
        ("in_transit", StatVal.int (countStatus rows "IN_TRANSIT_TO")),
        ("stopped", StatVal.int (countStatus rows "STOPPED_AT")),
        ("incoming", StatVal.int (countStatus rows "INCOMING_AT")),
        ("occupancy_many_seats",
          StatVal.pct ((countOccupancy rows "MANY_SEATS_AVAILABLE" : Rat) * 100 / (rows.length : Rat))),
        ("occupancy_few_seats",
          StatVal.pct ((countOccupancy rows "FEW_SEATS_AVAILABLE" : Rat) * 100 / (rows.length : Rat))),
        ("occupancy_unknown",
          StatVal.pct ((countOccupancy rows "UNKNOWN" : Rat) * 100 / (rows.length : Rat))),
        ("outbound_vehicles", StatVal.int (rows.countP (fun r => r.DirectionID == 0))),
        ("inbound_vehicles", StatVal.int (rows.countP (fun r => r.DirectionID == 1))),
        ("moving_vehicles", StatVal.int moving),
        ("stationary_vehicles", StatVal.int (stationaryCount rows))]
       ++ (if 0 < total then
            [("percent_moving", StatVal.pct ((moving : Rat) * 100 / (rows.length : Rat)))]
          else [])
       ++ (if 0 < moving then
            [("median_speed", StatVal.mph p50),
             ("speed_90th_percentile", StatVal.mph p90),
             ("speed_95th_percentile", StatVal.mph p95)]
          else []))

/-- `VehicleStore.GetSummaryStats` (src/unnamed/part_000 lines 273-328).
This version scans the aggregates into `sql.NullFloat64`, so SQL NULL
becomes the zero value instead of an error, and the call always
succeeds; it has no direction breakdown and no percentile section, and
`percent_moving` falls back to the literal string "0.0%" when the table
is empty (lines 321-325). -/
def storeGetSummaryStats (rows : List VehicleRecord) :
    Except String (List (String × StatVal)) :=
  let total : Int := rows.length
  let avgSpeed : Rat := if rows.length = 0 then 0 else (speeds rows).sum / (rows.length : Rat)
  let maxSpeed : Rat := (listMax (speeds rows)).getD 0
  let minSpeed : Rat := (listMin (speeds rows)).getD 0
  let moving : Nat := movingCount rows
  let occPct : String → Rat := fun st =>
    if rows.length = 0 then 0 else (countOccupancy rows st : Rat) * 100 / (rows.length : Rat)
  Except.ok
    [("total_vehicles", StatVal.int total),
     ("average_speed", StatVal.mph avgSpeed),
     ("max_speed", StatVal.mph maxSpeed),
     ("min_speed", StatVal.mph minSpeed),
     ("in_transit", StatVal.int (countStatus rows "IN_TRANSIT_TO")),
     ("stopped", StatVal.int (countStatus rows "STOPPED_AT")),
     ("incoming", StatVal.int (countStatus rows "INCOMING_AT")),
     ("occupancy_many_seats", StatVal.pct (occPct "MANY_SEATS_AVAILABLE")),
     ("occupancy_few_seats", StatVal.pct (occPct "FEW_SEATS_AVAILABLE")),
     ("occupancy_unknown", StatVal.pct (occPct "UNKNOWN")),
     ("moving_vehicles", StatVal.int moving),
     ("stationary_vehicles", StatVal.int (stationaryCount rows)),
     ("percent_moving",
       if 0 < total then StatVal.pct ((moving : Rat) * 100 / (rows.length : Rat))
       else StatVal.str "0.0%")]

/-- C2 counterexample: on a store with zero rows the pipeline's
GetSummaryStats (the implementation the claim cites at
src/pipeline/queries.go) does not succeed: the NULL speed aggregates
fail to scan and the error is returned to the caller. (Even ignoring the
scan failure, its map would lack the `percent_moving` key, since the key
is only set when `totalVehicles > 0`.) -/
theorem C2_cex_empty_store_errors :
    pipelineGetSummaryStats []
      = Except.error "sql: Scan error: converting NULL to float64 is unsupported" := rfl

/-- C2 amended: on a store with zero rows, `VehicleStore.GetSummaryStats`
(src/unnamed/part_000) succeeds and maps `percent_moving` to the literal
string "0.0%", while the pipeline's GetSummaryStats returns an error. -/
theorem C2_empty_store_percent_moving :
    (storeGetSummaryStats []).map (fun stats => stats.lookup "percent_moving")
      = Except.ok (some (StatVal.str "0.0%")) ∧
    pipelineGetSummaryStats []
      = Except.error "sql: Scan error: converting NULL to float64 is unsupported" := by
  constructor
  · rfl
  · rfl

theorem length_insertAsc (q : Rat) (l : List Rat) :
    (insertAsc q l).length = l.length + 1 := by
  induction l with
  | nil => rfl
  | cons x xs ih =>
      rw [insertAsc]
      by_cases h : q ≤ x
      · simp [h]
      · simp [h, ih]

theorem length_sortAsc (l : List Rat) : (sortAsc l).length = l.length := by
  induction l with
  | nil => rfl
  | cons x xs ih =>
      show (insertAsc x (sortAsc xs)).length = xs.length + 1
      rw [length_insertAsc, ih]

theorem length_movingSpeeds (rows : List VehicleRecord) :
    (movingSpeeds rows).length = movingCount rows := by
  rw [movingSpeeds, speeds, ← List.countP_eq_length_filter, List.countP_map]
  rfl

/-- C6: in the pipeline's summary statistics, each percentile is taken
from the ascending-sorted speeds of the rows with speed > 0, at
zero-based rank floor(movingCount/2), floor(movingCount*9/10) and
floor(movingCount*95/100) respectively; and when no row has speed > 0
the three keys are absent (`List.get?` past the end is `none`, and so is
the lookup). -/
theorem C6_speed_percentiles (rows : List VehicleRecord) (stats : List (String × StatVal))
    (h : pipelineGetSummaryStats rows = Except.ok stats) :
    stats.lookup "median_speed"
      = ((sortAsc (movingSpeeds rows)).get? (movingCount rows / 2)).map StatVal.mph ∧
    stats.lookup "speed_90th_percentile"
      = ((sortAsc (movingSpeeds rows)).get? (movingCount rows * 9 / 10)).map StatVal.mph ∧
    stats.lookup "speed_95th_percentile"
      = ((sortAsc (movingSpeeds rows)).get? (movingCount rows * 95 / 100)).map StatVal.mph ∧
    (movingCount rows = 0 →
      stats.lookup "median_speed" = none ∧
      stats.lookup "speed_90th_percentile" = none ∧
      stats.lookup "speed_95th_percentile" = none) := by
  rw [pipelineGetSummaryStats] at h
  by_cases h0 : rows.length = 0
  · rw [if_pos h0] at h
    cases h
  · rw [if_neg h0] at h
    injection h with h
    subst h
    have htot : (0 : Int) < (rows.length : Int) := by
      exact_mod_cast Nat.pos_of_ne_zero h0
    have hlen : (sortAsc (movingSpeeds rows)).length = movingCount rows := by
      rw [length_sortAsc, length_movingSpeeds]
    by_cases hm : movingCount rows = 0
    · have hms : movingSpeeds rows = [] := by
        have := length_movingSpeeds rows
        rw [hm] at this
        exact List.length_eq_zero.mp this
      simp [htot, hm, hms, sortAsc, List.lookup]
    · have hpos : 0 < movingCount rows := Nat.pos_of_ne_zero hm
      have hk50 : movingCount rows / 2 < (sortAsc (movingSpeeds rows)).length := by
        rw [hlen]
        exact Nat.div_lt_self hpos (by norm_num)
      have hk90 : movingCount rows * 9 / 10 < (sortAsc (movingSpeeds rows)).length := by
        rw [hlen]
        rw [Nat.div_lt_iff_lt_mul (by norm_num : (0:Nat) < 10)]
        omega
      have hk95 : movingCount rows * 95 / 100 < (sortAsc (movingSpeeds rows)).length := by
        rw [hlen]
        rw [Nat.div_lt_iff_lt_mul (by norm_num : (0:Nat) < 100)]
        omega
      refine ⟨?_, ?_, ?_, fun hz => absurd hz hm⟩ <;>
        simp [htot, hm, hpos, List.lookup, List.getD_eq_getElem?_getD,
          List.get?_eq_getElem?, List.getElem?_eq_getElem hk50,
          List.getElem?_eq_getElem hk90, List.getElem?_eq_getElem hk95]

/-- Three stored rows with speeds 10, 20, 30 (the store of the
repository's TestGetSummaryStats). -/
def rows3 : List VehicleRecord := [mkRec "1" "A" 10, mkRec "2" "B" 20, mkRec "3" "C" 30]

/-- The summary statistics the pipeline computes over `rows3`. -/
def stats3 : List (String × StatVal) :=
  (pipelineGetSummaryStats rows3).toOption.getD []

theorem C6_speed_percentiles_witness :
    pipelineGetSummaryStats rows3 = Except.ok stats3 ∧
    (stats3.lookup "median_speed"
      = ((sortAsc (movingSpeeds rows3)).get? (movingCount rows3 / 2)).map StatVal.mph ∧
    stats3.lookup "speed_90th_percentile"
      = ((sortAsc (movingSpeeds rows3)).get? (movingCount rows3 * 9 / 10)).map StatVal.mph ∧
    stats3.lookup "speed_95th_percentile"
      = ((sortAsc (movingSpeeds rows3)).get? (movingCount rows3 * 95 / 100)).map StatVal.mph ∧
    (movingCount rows3 = 0 →
      stats3.lookup "median_speed" = none ∧
      stats3.lookup "speed_90th_percentile" = none ∧
      stats3.lookup "speed_95th_percentile" = none)) :=
  ⟨rfl, C6_speed_percentiles rows3 stats3 rfl⟩

/-- Per-row sector classification of `GetBearingSummary`
(src/unnamed/part_002 lines 211-263): the eight half-open 45-degree
ranges, with "North" wrapping (`bearing >= 337.5 OR bearing < 22.5`) and
"North" as the `found == false` fallback. The Go code iterates a map in
arbitrary order, but the eight tests are pairwise disjoint, so at most
one matches and the per-row result does not depend on that order. -/
def classifyBearing (b : Int) : String :=
  if (337.5 : Rat) ≤ (b : Rat) ∨ (b : Rat) < 22.5 then "North"
  else if (22.5 : Rat) ≤ (b : Rat) ∧ (b : Rat) < 67.5 then "Northeast"
  else if (67.5 : Rat) ≤ (b : Rat) ∧ (b : Rat) < 112.5 then "East"
  else if (112.5 : Rat) ≤ (b : Rat) ∧ (b : Rat) < 157.5 then "Southeast"
  else if (157.5 : Rat) ≤ (b : Rat) ∧ (b : Rat) < 202.5 then "South"
  else if (202.5 : Rat) ≤ (b : Rat) ∧ (b : Rat) < 247.5 then "Southwest"
  else if (247.5 : Rat) ≤ (b : Rat) ∧ (b : Rat) < 292.5 then "West"
  else if (292.5 : Rat) ≤ (b : Rat) ∧ (b : Rat) < 337.5 then "Northwest"
  else "North"

/-- The eight sector names `GetBearingSummary` zero-initializes. -/
def dirNames : List String :=
  ["North", "Northeast", "East", "Southeast", "South", "Southwest", "West", "Northwest"]

/-- `ETLPipeline.GetBearingSummary` (src/unnamed/part_002 lines
211-263): all eight sectors present (zero-initialized), each counting
the stored rows whose bearing the sector classification assigns to it. -/
def GetBearingSummary (rows : List VehicleRecord) : List (String × Nat) :=
  dirNames.map (fun d => (d, rows.countP (fun r => classifyBearing r.Bearing == d)))

theorem classifyBearing_mem (b : Int) : classifyBearing b ∈ dirNames := by
  rw [classifyBearing]
  split_ifs <;> simp [dirNames]

theorem sum_map_add (ds : List String) (g h : String → Nat) :
    (ds.map (fun d => g d + h d)).sum = (ds.map g).sum + (ds.map h).sum := by
  induction ds with
  | nil => rfl
  | cons d ds ih =>
      simp only [List.map_cons, List.sum_cons, ih]
      omega

theorem indicator_sum (c : String) (hc : c ∈ dirNames) :
    (dirNames.map (fun d => if (c == d) = true then 1 else 0)).sum = 1 := by
  fin_cases hc <;> decide

theorem bearing_counts_sum (rows : List VehicleRecord) :
    ((GetBearingSummary rows).map Prod.snd).sum = rows.length := by
  rw [GetBearingSummary, List.map_map]
  show (dirNames.map (fun d => rows.countP (fun r => classifyBearing r.Bearing == d))).sum
      = rows.length
  induction rows with
  | nil => rfl
  | cons r rows ih =>
      simp only [List.countP_cons]
      rw [sum_map_add dirNames (fun d => rows.countP (fun r => classifyBearing r.Bearing == d))
        (fun d => if (classifyBearing r.Bearing == d) = true then 1 else 0), ih,
        indicator_sum (classifyBearing r.Bearing) (classifyBearing_mem r.Bearing),
        List.length_cons]

/-- C7: the bearing summary lists exactly the eight compass sectors (in
particular all eight keys are present, zero-valued on an empty store),
every stored row is counted in exactly one sector so the eight counts
sum to the row count, and the classification sends bearing 10 to "North"
and bearing 90 to "East". -/
theorem C7_bearing_summary (rows : List VehicleRecord) :
    (GetBearingSummary rows).map Prod.fst = dirNames ∧
    ((GetBearingSummary rows).map Prod.snd).sum = rows.length ∧
    classifyBearing 10 = "North" ∧
    classifyBearing 90 = "East" ∧
    (GetBearingSummary []).map Prod.snd = [0, 0, 0, 0, 0, 0, 0, 0] ∧
    classifyBearing 360 = "North" := by
  refine ⟨?_, bearing_counts_sum rows, ?_, ?_, by decide, ?_⟩
  · rfl
  · rw [classifyBearing]
    norm_num
  · rw [classifyBearing]
    norm_num
  · rw [classifyBearing]
    norm_num

/-- Insertion step of the descending-by-speed sort modelling
`ORDER BY speed DESC`. -/
def insertDescSpeed (r : VehicleRecord) : List VehicleRecord → List VehicleRecord
  | [] => [r]
  | x :: xs => if x.Speed ≤ r.Speed then r :: x :: xs else x :: insertDescSpeed r xs

/-- `ORDER BY speed DESC`: rows sorted by descending speed (the order of
rows with equal speed is not contractually specified; this sort picks
one such order). -/
def sortDescSpeed (rows : List VehicleRecord) : List VehicleRecord :=
  rows.foldr insertDescSpeed []

/-- `GetTop10FastestVehicles` (src/pipeline/queries.go lines 8-16 and
src/unnamed/part_000 lines 213-221): `ORDER BY speed DESC LIMIT 10`. -/
def GetTop10FastestVehicles (rows : List VehicleRecord) : List VehicleRecord :=
  (sortDescSpeed rows).take 10

/-- Adjacent rows are in descending speed order. -/
def descBySpeed (a b : VehicleRecord) : Prop := b.Speed ≤ a.Speed

theorem chain_insertDescSpeed (r : VehicleRecord) (l : List VehicleRecord)
    (h : List.Chain' descBySpeed l) :
    List.Chain' descBySpeed (insertDescSpeed r l) := by
  induction l with
  | nil => simp [insertDescSpeed]
  | cons x xs ih =>
      rw [insertDescSpeed]
      by_cases hc : x.Speed ≤ r.Speed
      · rw [if_pos hc]
        exact List.chain'_cons.mpr ⟨hc, h⟩
      · rw [if_neg hc]
        have hxr : descBySpeed x r := le_of_lt (lt_of_not_le hc)
        have htail : List.Chain' descBySpeed (insertDescSpeed r xs) := ih h.tail
        cases xs with
        | nil =>
            rw [insertDescSpeed]
            exact List.chain'_cons.mpr ⟨hxr, List.chain'_singleton r⟩
        | cons y ys =>
            rw [insertDescSpeed] at htail ⊢
            by_cases hy : y.Speed ≤ r.Speed
            · rw [if_pos hy] at htail ⊢
              exact List.chain'_cons.mpr ⟨hxr, htail⟩
            · rw [if_neg hy] at htail ⊢
              exact List.chain'_cons.mpr ⟨(List.chain'_cons.mp h).1, htail⟩

theorem chain_sortDescSpeed (rows : List VehicleRecord) :
    List.Chain' descBySpeed (sortDescSpeed rows) := by
  induction rows with
  | nil => simp [sortDescSpeed]
  | cons r rows ih => exact chain_insertDescSpeed r (sortDescSpeed rows) ih

theorem chain_take {R : VehicleRecord → VehicleRecord → Prop} (n : Nat)
    (l : List VehicleRecord) (h : List.Chain' R l) : List.Chain' R (l.take n) := by
  induction l generalizing n with
  | nil => simp
  | cons x xs ih =>
      cases n with
      | zero => simp
      | succ n =>
          rw [List.take_succ_cons]
          cases xs with
          | nil => simp
          | cons y ys =>
              cases n with
              | zero => simp
              | succ n =>
                  rw [List.take_succ_cons]
                  exact List.chain'_cons.mpr
                    ⟨(List.chain'_cons.mp h).1,
                      by
                        have := ih (n + 1) (List.chain'_cons.mp h).2
                        rwa [List.take_succ_cons] at this⟩

/-- Fifteen stored rows with speeds 0, 5, 10, ..., 70 (the store of the
repository's TestGetTop10FastestVehicles). -/
def rows15 : List VehicleRecord :=
  (List.range 15).map (fun i => mkRec (toString i) (toString i) ((5 * i : Nat) : Rat))

/-- C9: the top-10 query returns at most 10 rows, in descending speed
order, for every store; and over the fifteen rows with speeds
0, 5, ..., 70 it returns exactly 10 rows whose first element has
speed 70. -/
theorem C9_top10 :
    (∀ rows : List VehicleRecord,
      (GetTop10FastestVehicles rows).length ≤ 10 ∧
      List.Chain' descBySpeed (GetTop10FastestVehicles rows)) ∧
    (GetTop10FastestVehicles rows15).length = 10 ∧
    (GetTop10FastestVehicles rows15).head?.map VehicleRecord.Speed = some 70 := by
  refine ⟨fun rows => ⟨?_, ?_⟩, by decide, by decide⟩
  · rw [GetTop10FastestVehicles, List.length_take]
    exact min_le_left _ _
  · exact chain_take 10 _ (chain_sortDescSpeed rows)

/-- SQL `LIKE 'p%'` matching of the id against a constant pattern whose
only wildcard is the trailing `%`: character-by-character comparison,
case-insensitive for ASCII letters (SQLite's default LIKE semantics). -/
def likeStarts : List Char → List Char → Bool
  | [], _ => true
  | _ :: _, [] => false
  | p :: ps, c :: cs => (p.toLower == c.toLower) && likeStarts ps cs

/-- The `CASE` expression of `GetRouteBreakdown` (src/unnamed/part_000
lines 227-235, src/pipeline/queries.go lines 22-30): first matching
`WHEN` wins; note the Go/SQL text tests `id LIKE 'y%'` (Bus) before
`id LIKE 'ynk%'` (Commuter Rail). -/
def routeType (id : String) : String :=
  if likeStarts ['R', '-'] id.data then "Red Line"
  else if likeStarts ['O', '-'] id.data then "Orange Line"
  else if likeStarts ['G', '-'] id.data then "Green Line"
  else if likeStarts ['B', '-'] id.data then "Blue Line"
  else if likeStarts ['y'] id.data then "Bus"
  else if likeStarts ['y', 'n', 'k'] id.data then "Commuter Rail"
  else "Other"

/-- One row of the route breakdown result: `route_type`, `COUNT(*)`,
`AVG(speed)` and `MAX(speed)` of the group. -/
structure RouteStat where
  route_type : String
  count : Nat
  avg_speed : Rat
  max_speed : Rat
deriving DecidableEq

/-- The `GROUP BY route_type` group of the rows classified as `t`. -/
def routeGroup (rows : List VehicleRecord) (t : String) : RouteStat :=
  { route_type := t
    count := (rows.filter (fun r => routeType r.ID == t)).length
    avg_speed := ((rows.filter (fun r => routeType r.ID == t)).map VehicleRecord.Speed).sum
      / (((rows.filter (fun r => routeType r.ID == t)).length : Nat) : Rat)
    max_speed :=
      (listMax ((rows.filter (fun r => routeType r.ID == t)).map VehicleRecord.Speed)).getD 0 }

/-- Insertion step of the `ORDER BY count DESC` sort. -/
def insertByCount (g : RouteStat) : List RouteStat → List RouteStat
  | [] => [g]
  | x :: xs => if x.count ≤ g.count then g :: x :: xs else x :: insertByCount g xs

/-- `ORDER BY count DESC` (tie order unspecified). -/
def sortByCountDesc (l : List RouteStat) : List RouteStat :=
  l.foldr insertByCount []

/-- `GetRouteBreakdown` (src/unnamed/part_000 lines 224-270,
src/pipeline/queries.go lines 18-65): one group per distinct
`route_type` value occurring among the rows, with count, average and
max speed, ordered by descending count. -/
def GetRouteBreakdown (rows : List VehicleRecord) : List RouteStat :=
  sortByCountDesc (((rows.map (fun r => routeType r.ID)).dedup).map (routeGroup rows))

theorem mem_insertByCount {y g : RouteStat} {l : List RouteStat}
    (h : y ∈ insertByCount g l) : y = g ∨ y ∈ l := by
  induction l with
  | nil =>
      rw [insertByCount] at h
      exact Or.inl (List.mem_singleton.mp h)
  | cons x xs ih =>
      rw [insertByCount] at h
      by_cases hc : x.count ≤ g.count
      · rw [if_pos hc] at h
        exact List.mem_cons.mp h
      · rw [if_neg hc] at h
        rcases List.mem_cons.mp h with h | h
        · exact Or.inr (List.mem_cons.mpr (Or.inl h))
        · rcases ih h with h | h
          · exact Or.inl h
          · exact Or.inr (List.mem_cons.mpr (Or.inr h))

theorem mem_sortByCountDesc {y : RouteStat} {l : List RouteStat}
    (h : y ∈ sortByCountDesc l) : y ∈ l := by
  induction l with
  | nil => exact absurd h (List.not_mem_nil y)
  | cons x xs ih =>
      rcases mem_insertByCount h with h | h
      · exact List.mem_cons.mpr (Or.inl h)
      · exact List.mem_cons.mpr (Or.inr (ih h))

theorem likeStarts_ynk_y (cs : List Char)
    (h : likeStarts ['y', 'n', 'k'] cs = true) : likeStarts ['y'] cs = true := by
  cases cs with
  | nil => simp [likeStarts] at h
  | cons c cs' =>
      simp only [likeStarts, Bool.and_eq_true] at h ⊢
      exact ⟨h.1, trivial⟩

theorem routeType_ne_commuter (id : String) :
    (routeType id == "Commuter Rail") = false := by
  rw [routeType]
  split_ifs with h1 h2 h3 h4 h5 h6
  · decide
  · decide
  · decide
  · decide
  · decide
  · exact absurd (likeStarts_ynk_y id.data h6) h5
  · decide

/-- C10: the route breakdown never contains a "Commuter Rail" group:
the catch-all `id LIKE 'y%'` (Bus) branch is tested before the
`id LIKE 'ynk%'` branch and matches every id the latter would, so the
Commuter Rail branch of the CASE is unreachable. -/
theorem C10_no_commuter_rail (rows : List VehicleRecord) :
    (GetRouteBreakdown rows).all (fun g => !(g.route_type == "Commuter Rail")) = true := by
  rw [List.all_eq_true]
  intro g hg
  rw [GetRouteBreakdown] at hg
  obtain ⟨t, ht, rfl⟩ := List.mem_map.mp (mem_sortByCountDesc hg)
  obtain ⟨r, _, rfl⟩ := List.mem_map.mp (List.mem_dedup.mp ht)
  show (!(routeType r.ID == "Commuter Rail")) = true
  rw [routeType_ne_commuter]
  rfl

end MbtaEtl
